import Mathlib

/-!
Shallow embedding of the user-account application in `app.py`
(Flask routes `signup`, `confirm_email`, `signin`, `reset_password`,
`reset_password_confirm`, `change_password`, `delete_account`,
utility `generate_token`, the bcrypt password hashing calls, and the
itsdangerous `URLSafeTimedSerializer` token service).

Modelling conventions:
- The itsdangerous serializer is modelled symbolically: a token is either a
  well-formed signed payload carrying the email, the salt and the secret it
  was signed with together with its issue timestamp, or a malformed blob.
  `serializer.loads` checks the signature (keyed by secret and salt) before
  the timestamp, so a salt or secret mismatch yields `BadSignature`
  (`Invalid`) even for an old token, and `SignatureExpired` is raised only
  for an authentic token older than `max_age`.
- bcrypt is modelled symbolically: a hash records the password and the
  per-call salt; `checkpw` compares the password against the recorded one.
- The SQLAlchemy store is a `List User`; `filter_by(...).first()` is
  `List.find?`, an in-place row mutation followed by `commit` is a
  replace-by-primary-key map over the list, `delete` is a filter.
- `first_or_404` raises `werkzeug.exceptions.NotFound`, a subclass of
  `Exception`; inside the `try` blocks of `confirm_email` and
  `reset_password_confirm` it is therefore caught by `except Exception`
  and flashes the invalid-link message.
- `flash(message, category)` outcomes are recorded as `Flash` values.
- `mail.send` may raise; `signup` wraps it in no handler, so a mail failure
  is modelled as the distinguished outcome `SignupOutcome.unhandled`
  (the exception propagates to the 500 error handler).
-/

/-- Symbolic model of a bcrypt hash: `bcrypt.hashpw(password, bcrypt.gensalt())`
records the password together with the random per-call salt. -/
structure HashedCredential where
  pw : String
  salt : Nat
deriving DecidableEq, Repr

/-- `bcrypt.hashpw(password.encode(), bcrypt.gensalt())`; the salt drawn by
`gensalt()` is passed explicitly. -/
def bcrypt_hashpw (password : String) (salt : Nat) : HashedCredential :=
  ⟨password, salt⟩

/-- `bcrypt.checkpw(password.encode(), hashed)`: recompute with the embedded
salt and compare, i.e. compare the passwords. -/
def bcrypt_checkpw (password : String) (h : HashedCredential) : Bool :=
  password == h.pw

/-- Symbolic model of an itsdangerous `URLSafeTimedSerializer` token string:
either an authentic signed payload or a malformed/tampered blob. -/
inductive Token where
  | signed (email : String) (salt : String) (issuedAt : Nat) (secret : String)
  | malformed (blob : String)
deriving DecidableEq, Repr

/-- `generate_token(email, salt)` from app.py:
`Serializer(app.config[SECRET_KEY]).dumps(email, salt=salt)`. -/
def generate_token (secret : String) (now : Nat) (email : String) (salt : String) : Token :=
  .signed email salt now secret

/-- The two failure modes of `serializer.loads`: `SignatureExpired` and any
other exception (`BadSignature`, malformed payload). -/
inductive TokenError where
  | expired
  | invalid
deriving DecidableEq, Repr

/-- `Serializer(secret).loads(token, salt=salt, max_age=maxAge)`.
The signature (keyed by secret and salt) is checked first; only an
authentic token whose age exceeds `maxAge` raises `SignatureExpired`. -/
def verify_token (secret : String) (now : Nat) (tok : Token) (salt : String)
    (maxAge : Nat) : Except TokenError String :=
  match tok with
  | .malformed _ => .error .invalid
  | .signed email s issuedAt sec =>
    if sec = secret ∧ s = salt then
      if issuedAt + maxAge < now then .error .expired
      else .ok email
    else .error .invalid

/-- The `User` model of app.py. -/
structure User where
  id : Nat
  username : String
  email : String
  password : HashedCredential
  created_at : Nat
  is_confirmed : Bool
deriving DecidableEq, Repr

/-- A `flash(message, category)` call. -/
structure Flash where
  message : String
  category : String
deriving DecidableEq, Repr

/-- `User.query.filter_by(email=e).first()`. -/
def find_by_email (store : List User) (e : String) : Option User :=
  store.find? (fun u => u.email == e)

/-- `User.query.filter_by(username=s).first()`. -/
def find_by_username (store : List User) (s : String) : Option User :=
  store.find? (fun u => u.username == s)

/-- Mutating a fetched row and committing: replace the row with the same
primary key. -/
def update_user (store : List User) (u : User) : List User :=
  store.map (fun v => if v.id == u.id then u else v)

/-- Outcome of the `signup` route: either a flashed message, or an exception
escaping the route (no handler around `send_confirmation_email`, so a mail
failure propagates to the 500 error handler). -/
inductive SignupOutcome where
  | flashed (f : Flash)
  | unhandled
deriving DecidableEq, Repr

/-- The `signup` route (form already validated). `freshId` is the primary key
assigned by the database, `hashSalt` the bcrypt salt, `createdAt` the row
timestamp, `mailOk` whether `mail.send` succeeds. -/
def signup (store : List User) (username email password : String)
    (freshId hashSalt createdAt : Nat) (mailOk : Bool) :
    List User × SignupOutcome :=
  match find_by_email store email with
  | some _ => (store, .flashed ⟨"Email already exists.", "danger"⟩)
  | none =>
    let hashed := bcrypt_hashpw password hashSalt
    let newUser : User := ⟨freshId, username, email, hashed, createdAt, false⟩
    let store1 := store ++ [newUser]
    if mailOk then
      (store1, .flashed ⟨"Account created! Please check your email to confirm.", "success"⟩)
    else
      (store1, .unhandled)

/-- The `confirm_email` route. All paths redirect to `signin`; the flash is
the observable outcome. `first_or_404` raising inside the `try` is caught by
`except Exception` and flashes the invalid-link message. -/
def confirm_email (secret : String) (now : Nat) (store : List User)
    (token : Token) : List User × Flash :=
  match verify_token secret now token "email-confirmation" 3600 with
  | .error .expired => (store, ⟨"Confirmation link expired.", "danger"⟩)
  | .error .invalid => (store, ⟨"Invalid confirmation link.", "danger"⟩)
  | .ok email =>
    match find_by_email store email with
    | none => (store, ⟨"Invalid confirmation link.", "danger"⟩)
    | some user =>
      if !user.is_confirmed then
        (update_user store { user with is_confirmed := true },
         ⟨"Email confirmed!", "success"⟩)
      else
        (store, ⟨"Email already confirmed.", "info"⟩)

/-- The `signin` route (form already validated). Returns the session
established by `login_user` (the logged-in user id, if any) and the flash.
The route performs no store write. -/
def signin (store : List User) (username password : String) :
    Option Nat × Flash :=
  match find_by_username store username with
  | some user =>
    if bcrypt_checkpw password user.password then
      if user.is_confirmed then
        (some user.id, ⟨"Sign in successful!", "success"⟩)
      else
        (none, ⟨"Please confirm your email first.", "warning"⟩)
    else
      (none, ⟨"Invalid username or password.", "danger"⟩)
  | none => (none, ⟨"Invalid username or password.", "danger"⟩)

/-- The `reset_password` request route (form already validated): sends the
reset mail if the email is known; no store mutation. -/
def reset_password (store : List User) (email : String) : List User × Flash :=
  match find_by_email store email with
  | some _ => (store, ⟨"Reset link sent to your email.", "info"⟩)
  | none => (store, ⟨"Email not found.", "danger"⟩)

/-- The `reset_password_confirm` route. `formValid` is
`form.validate_on_submit()`; when false the form is rendered with no flash
(`none`). `first_or_404` raising inside the `try` is caught by
`except Exception`. -/
def reset_password_confirm (secret : String) (now : Nat) (store : List User)
    (token : Token) (newPassword : String) (hashSalt : Nat)
    (formValid : Bool) : List User × Option Flash :=
  match verify_token secret now token "password-reset" 3600 with
  | .error .expired => (store, some ⟨"Reset link expired.", "danger"⟩)
  | .error .invalid => (store, some ⟨"Invalid reset link.", "danger"⟩)
  | .ok email =>
    match find_by_email store email with
    | none => (store, some ⟨"Invalid reset link.", "danger"⟩)
    | some user =>
      if formValid then
        (update_user store { user with password := bcrypt_hashpw newPassword hashSalt },
         some ⟨"Password reset successful!", "success"⟩)
      else (store, none)

/-- The `change_password` route (behind `login_required`; `sessionUserId` is
`current_user`'s id). When no session user exists the route is never reached
(`none`, store untouched). -/
def change_password (store : List User) (sessionUserId : Nat)
    (oldPassword newPassword : String) (hashSalt : Nat) :
    List User × Option Flash :=
  match store.find? (fun u => u.id == sessionUserId) with
  | none => (store, none)
  | some user =>
    if bcrypt_checkpw oldPassword user.password then
      (update_user store { user with password := bcrypt_hashpw newPassword hashSalt },
       some ⟨"Password changed successfully!", "success"⟩)
    else (store, some ⟨"Incorrect old password.", "danger"⟩)

/-- The `delete_account` route (POST branch): delete the current user's row. -/
def delete_account (store : List User) (sessionUserId : Nat) : List User :=
  store.filter (fun u => u.id != sessionUserId)

/-- One lifecycle operation with its environment inputs, for stating
store-level invariants across all routes. -/
inductive Op where
  | opSignup (username email password : String) (freshId hashSalt createdAt : Nat) (mailOk : Bool)
  | opConfirmEmail (token : Token)
  | opSignin (username password : String)
  | opRequestReset (email : String)
  | opConfirmReset (token : Token) (newPassword : String) (hashSalt : Nat) (formValid : Bool)
  | opChangePassword (sessionUserId : Nat) (oldPassword newPassword : String) (hashSalt : Nat)
  | opDeleteAccount (sessionUserId : Nat)
deriving Repr

/-- The store produced by one lifecycle operation (`signin` and the reset
request perform no store write). -/
def applyOp (secret : String) (now : Nat) (store : List User) : Op → List User
  | .opSignup un e pw fid hs ca mo => (signup store un e pw fid hs ca mo).1
  | .opConfirmEmail tok => (confirm_email secret now store tok).1
  | .opSignin _ _ => store
  | .opRequestReset e => (reset_password store e).1
  | .opConfirmReset tok np hs fv => (reset_password_confirm secret now store tok np hs fv).1
  | .opChangePassword uid op np hs => (change_password store uid op np hs).1
  | .opDeleteAccount uid => delete_account store uid

/-- C1: a token produced by `generate_token` under a purpose salt, verified
under the same salt and the same server secret within 3600 seconds of
issuance, succeeds and returns exactly the embedded email. -/
theorem C1_token_roundtrip (secret email salt : String) (t0 now : Nat)
    (hpurpose : salt = "email-confirmation" ∨ salt = "password-reset")
    (hage : now ≤ t0 + 3600) :
    verify_token secret now (generate_token secret t0 email salt) salt 3600 =
      .ok email := by
  simp [verify_token, generate_token, Nat.not_lt.mpr hage]

theorem C1_token_roundtrip_witness :
    verify_token "k" 3600 (generate_token "k" 0 "a@x.com" "email-confirmation")
      "email-confirmation" 3600 = .ok "a@x.com" :=
  C1_token_roundtrip "k" "a@x.com" "email-confirmation" 0 3600
    (Or.inl rfl) (by decide)

/-- C2: verification failure modes. An authentic token of the presented
purpose fails with `expired` once more than 3600 seconds have elapsed since
issuance; a malformed token, a token signed under a different secret, and a
token issued under the other purpose salt all fail with `invalid` (the
signature check, keyed by secret and salt, precedes the timestamp check). -/
theorem C2_verify_failure_modes (secret email salt salt2 secret2 blob : String)
    (t0 now : Nat)
    (hpurpose : salt = "email-confirmation" ∨ salt = "password-reset") :
    (t0 + 3600 < now →
      verify_token secret now (generate_token secret t0 email salt) salt 3600 =
        .error .expired) ∧
    (verify_token secret now (.malformed blob) salt 3600 = .error .invalid) ∧
    (salt2 ≠ salt →
      verify_token secret now (generate_token secret t0 email salt2) salt 3600 =
        .error .invalid) ∧
    (secret2 ≠ secret →
      verify_token secret now (generate_token secret2 t0 email salt) salt 3600 =
        .error .invalid) := by
  refine ⟨fun hexp => ?_, rfl, fun hne => ?_, fun hne => ?_⟩
  · simp [verify_token, generate_token, hexp]
  · simp [verify_token, generate_token, hne]
  · simp [verify_token, generate_token, hne]

theorem C2_verify_failure_modes_witness :
    (0 + 3600 < 9000 →
      verify_token "k" 9000 (generate_token "k" 0 "a@x.com" "email-confirmation")
        "email-confirmation" 3600 = .error .expired) ∧
    (verify_token "k" 9000 (.malformed "zz") "email-confirmation" 3600 =
      .error .invalid) ∧
    ("password-reset" ≠ "email-confirmation" →
      verify_token "k" 9000 (generate_token "k" 0 "a@x.com" "password-reset")
        "email-confirmation" 3600 = .error .invalid) ∧
    ("j" ≠ "k" →
      verify_token "k" 9000 (generate_token "j" 0 "a@x.com" "email-confirmation")
        "email-confirmation" 3600 = .error .invalid) :=
  C2_verify_failure_modes "k" "a@x.com" "email-confirmation" "password-reset"
    "j" "zz" 0 9000 (Or.inl rfl)

/-- C3 counterexample: the claim that the expired-token failure and the
invalid-token failure produce one and the same user-facing outcome is false:
at `confirm_email`, an authentic token 5000 seconds old flashes
"Confirmation link expired." while a malformed token flashes
"Invalid confirmation link." — two distinct messages the user can tell
apart. -/
theorem C3_counterexample :
    (confirm_email "k" 5000 []
        (generate_token "k" 0 "a@x.com" "email-confirmation")).2 ≠
      (confirm_email "k" 5000 [] (.malformed "zz")).2 := by
  decide

/-- C3 amended: at both `confirm_email` and `reset_password_confirm`, the
expired-token and invalid-token failures share the flash category "danger"
(and both redirect to signin), but their messages differ
("Confirmation link expired." vs "Invalid confirmation link.", and
"Reset link expired." vs "Invalid reset link."), so the end user can
distinguish expiry from tampering. -/
theorem C3_distinct_messages_same_category (secret blob email np : String)
    (t0 now hs : Nat) (store : List User) (fv : Bool)
    (hexp : t0 + 3600 < now) :
    ((confirm_email secret now store
        (generate_token secret t0 email "email-confirmation")).2 =
      ⟨"Confirmation link expired.", "danger"⟩) ∧
    ((confirm_email secret now store (.malformed blob)).2 =
      ⟨"Invalid confirmation link.", "danger"⟩) ∧
    ((reset_password_confirm secret now store
        (generate_token secret t0 email "password-reset") np hs fv).2 =
      some ⟨"Reset link expired.", "danger"⟩) ∧
    ((reset_password_confirm secret now store (.malformed blob) np hs fv).2 =
      some ⟨"Invalid reset link.", "danger"⟩) := by
  refine ⟨?_, rfl, ?_, rfl⟩
  · simp [confirm_email, verify_token, generate_token, hexp]
  · simp [reset_password_confirm, verify_token, generate_token, hexp]

theorem C3_distinct_messages_same_category_witness :
    ((confirm_email "k" 5000 []
        (generate_token "k" 0 "a@x.com" "email-confirmation")).2 =
      ⟨"Confirmation link expired.", "danger"⟩) ∧
    ((confirm_email "k" 5000 [] (.malformed "zz")).2 =
      ⟨"Invalid confirmation link.", "danger"⟩) ∧
    ((reset_password_confirm "k" 5000 []
        (generate_token "k" 0 "a@x.com" "password-reset") "np" 7 true).2 =
      some ⟨"Reset link expired.", "danger"⟩) ∧
    ((reset_password_confirm "k" 5000 [] (.malformed "zz") "np" 7 true).2 =
      some ⟨"Invalid reset link.", "danger"⟩) :=
  C3_distinct_messages_same_category "k" "zz" "a@x.com" "np" 0 5000 7 [] true
    (by decide)

/-- C4: confirmation gate at `signin`. With the correct password for a
stored user, an unconfirmed user gets the "Please confirm your email first."
warning and no session; a confirmed user gets a session bound to their id
and the success flash. -/
theorem C4_confirmation_gate (store : List User) (uname pw : String)
    (user : User)
    (hfind : find_by_username store uname = some user)
    (hpw : bcrypt_checkpw pw user.password = true) :
    (user.is_confirmed = false →
      signin store uname pw =
        (none, ⟨"Please confirm your email first.", "warning"⟩)) ∧
    (user.is_confirmed = true →
      signin store uname pw =
        (some user.id, ⟨"Sign in successful!", "success"⟩)) := by
  constructor <;> intro hconf <;> simp [signin, hfind, hpw, hconf]

theorem C4_confirmation_gate_witness :
    let u1 : User := ⟨1, "alice", "a@x.com", bcrypt_hashpw "pw" 3, 0, false⟩
    let u2 : User := ⟨2, "bob", "b@x.com", bcrypt_hashpw "pw" 4, 0, true⟩
    (signin [u1, u2] "alice" "pw" =
      (none, ⟨"Please confirm your email first.", "warning"⟩)) ∧
    (signin [u1, u2] "bob" "pw" =
      (some 2, ⟨"Sign in successful!", "success"⟩)) :=
  ⟨(C4_confirmation_gate
      [⟨1, "alice", "a@x.com", bcrypt_hashpw "pw" 3, 0, false⟩,
       ⟨2, "bob", "b@x.com", bcrypt_hashpw "pw" 4, 0, true⟩]
      "alice" "pw" ⟨1, "alice", "a@x.com", bcrypt_hashpw "pw" 3, 0, false⟩
      (by decide) (by decide)).1 (by decide),
   (C4_confirmation_gate
      [⟨1, "alice", "a@x.com", bcrypt_hashpw "pw" 3, 0, false⟩,
       ⟨2, "bob", "b@x.com", bcrypt_hashpw "pw" 4, 0, true⟩]
      "bob" "pw" ⟨2, "bob", "b@x.com", bcrypt_hashpw "pw" 4, 0, true⟩
      (by decide) (by decide)).2 (by decide)⟩

/-- C6: generic auth failure. A `signin` attempt with an unknown username
and one with a known username but a non-matching password produce the
identical outcome: no session and the same
"Invalid username or password."/"danger" flash. -/
theorem C6_generic_auth_failure (store : List User) (u1 u2 p1 p2 : String)
    (user : User)
    (habsent : find_by_username store u1 = none)
    (hknown : find_by_username store u2 = some user)
    (hpw : bcrypt_checkpw p2 user.password = false) :
    signin store u1 p1 = signin store u2 p2 ∧
    signin store u1 p1 =
      (none, ⟨"Invalid username or password.", "danger"⟩) := by
  constructor <;> simp [signin, habsent, hknown, hpw]

theorem C6_generic_auth_failure_witness :
    let u : User := ⟨1, "alice", "a@x.com", bcrypt_hashpw "pw" 3, 0, true⟩
    signin [u] "mallory" "x" = signin [u] "alice" "wrong" ∧
    signin [u] "mallory" "x" =
      (none, ⟨"Invalid username or password.", "danger"⟩) :=
  C6_generic_auth_failure [⟨1, "alice", "a@x.com", bcrypt_hashpw "pw" 3, 0, true⟩]
    "mallory" "alice" "x" "wrong"
    ⟨1, "alice", "a@x.com", bcrypt_hashpw "pw" 3, 0, true⟩
    (by decide) (by decide) (by decide)

/-- Any row of an updated store is either the replacement row or an original
row. -/
theorem mem_update_user {store : List User} {u' v : User}
    (hv : v ∈ update_user store u') : v = u' ∨ v ∈ store := by
  rcases List.mem_map.mp hv with ⟨w, hw, hweq⟩
  by_cases h : (w.id == u'.id) = true
  · left; rw [if_pos h] at hweq; exact hweq.symm
  · right; rw [if_neg h] at hweq; exact hweq ▸ hw

/-- In a store with pairwise-distinct primary keys (the database enforces
key uniqueness), rows are determined by their id. -/
theorem pairwise_id_inj {l : List User}
    (h : l.Pairwise fun a b => a.id ≠ b.id)
    {a b : User} (ha : a ∈ l) (hb : b ∈ l) (hid : a.id = b.id) : a = b := by
  induction l with
  | nil => cases ha
  | cons x xs ih =>
    rcases List.pairwise_cons.mp h with ⟨hx, hxs⟩
    rcases List.mem_cons.mp ha with rfl | ha' <;>
      rcases List.mem_cons.mp hb with rfl | hb'
    · rfl
    · exact absurd hid (hx b hb')
    · exact absurd hid.symm (hx a ha')
    · exact ih hxs ha' hb'

/-- After replacing the row an email lookup finds with a row of the same
primary key and the same email, the lookup returns the replacement. -/
theorem find_by_email_update (store : List User) (u u' : User) (e : String)
    (hids : store.Pairwise fun a b => a.id ≠ b.id)
    (hfind : find_by_email store e = some u)
    (hid : u'.id = u.id) (hem : u'.email = e) :
    find_by_email (update_user store u') e = some u' := by
  induction store with
  | nil => simp [find_by_email] at hfind
  | cons v vs ih =>
    rcases List.pairwise_cons.mp hids with ⟨hv, hvs⟩
    rw [find_by_email, List.find?_cons] at hfind
    by_cases hmatch : (v.email == e) = true
    · rw [hmatch] at hfind
      injection hfind with hfind
      subst hfind
      have hhead : (v.id == u'.id) = true := by simp [hid]
      have hem' : (u'.email == e) = true := by simp [hem]
      simp only [find_by_email, update_user, List.map_cons, hhead, if_true,
        List.find?_cons, hem']
    · rw [Bool.not_eq_true] at hmatch
      rw [hmatch] at hfind
      have hmem : u ∈ vs := List.mem_of_find?_eq_some hfind
      have hne : (v.id == u'.id) = false := by
        simp only [hid, beq_eq_false_iff_ne, ne_eq]
        exact hv u hmem
      simp only [find_by_email, update_user, List.map_cons, hne,
        Bool.false_eq_true, if_false, List.find?_cons, hmatch]
      exact ih hvs hfind

/-- C5: `confirm_email` idempotence. For an unconfirmed stored user and a
valid unexpired confirmation token for their email, the first call flips
`is_confirmed` to true and persists it; a second call with any fresh valid
token for the same (now confirmed) user flashes "Email already confirmed."
and leaves the store untouched. -/
theorem C5_confirm_idempotent (secret : String) (store : List User)
    (user : User) (t1 now1 t2 now2 : Nat)
    (hids : store.Pairwise fun a b => a.id ≠ b.id)
    (hfind : find_by_email store user.email = some user)
    (hunconf : user.is_confirmed = false)
    (h1 : now1 ≤ t1 + 3600) (h2 : now2 ≤ t2 + 3600) :
    confirm_email secret now1 store
        (generate_token secret t1 user.email "email-confirmation") =
      (update_user store { user with is_confirmed := true },
       ⟨"Email confirmed!", "success"⟩) ∧
    find_by_email (update_user store { user with is_confirmed := true })
        user.email = some { user with is_confirmed := true } ∧
    confirm_email secret now2
        (update_user store { user with is_confirmed := true })
        (generate_token secret t2 user.email "email-confirmation") =
      (update_user store { user with is_confirmed := true },
       ⟨"Email already confirmed.", "info"⟩) := by
  have hfind' : find_by_email (update_user store { user with is_confirmed := true })
      user.email = some { user with is_confirmed := true } :=
    find_by_email_update store user _ user.email hids hfind rfl rfl
  refine ⟨?_, hfind', ?_⟩
  · simp [confirm_email, verify_token, generate_token, Nat.not_lt.mpr h1,
      hfind, hunconf]
  · simp [confirm_email, verify_token, generate_token, Nat.not_lt.mpr h2,
      hfind']

theorem C5_confirm_idempotent_witness :
    let u : User := ⟨1, "alice", "a@x.com", bcrypt_hashpw "pw" 3, 0, false⟩
    confirm_email "k" 100 [u]
        (generate_token "k" 0 "a@x.com" "email-confirmation") =
      (update_user [u] { u with is_confirmed := true },
       ⟨"Email confirmed!", "success"⟩) ∧
    find_by_email (update_user [u] { u with is_confirmed := true })
        "a@x.com" = some { u with is_confirmed := true } ∧
    confirm_email "k" 200 (update_user [u] { u with is_confirmed := true })
        (generate_token "k" 150 "a@x.com" "email-confirmation") =
      (update_user [u] { u with is_confirmed := true },
       ⟨"Email already confirmed.", "info"⟩) :=
  C5_confirm_idempotent "k"
    [⟨1, "alice", "a@x.com", bcrypt_hashpw "pw" 3, 0, false⟩]
    ⟨1, "alice", "a@x.com", bcrypt_hashpw "pw" 3, 0, false⟩
    0 100 150 200 (by decide) (by decide) (by decide) (by decide) (by decide)

/-- C7: duplicate-email signup. When some stored user already has the
requested email, `signup` flashes "Email already exists." and returns the
store unchanged — no row is inserted. -/
theorem C7_duplicate_email (store : List User) (uname e pw : String)
    (fid hs ca : Nat) (mailOk : Bool)
    (hdup : ∃ u ∈ store, u.email = e) :
    signup store uname e pw fid hs ca mailOk =
      (store, .flashed ⟨"Email already exists.", "danger"⟩) := by
  obtain ⟨u, hu, hue⟩ := hdup
  have hfe : ∃ w, find_by_email store e = some w := by
    cases h : find_by_email store e with
    | some w => exact ⟨w, rfl⟩
    | none =>
      rw [find_by_email, List.find?_eq_none] at h
      exact absurd (by simp [hue]) (h u hu)
  obtain ⟨w, hw⟩ := hfe
  simp [signup, hw]

theorem C7_duplicate_email_witness :
    let u : User := ⟨1, "alice", "a@x.com", bcrypt_hashpw "pw" 3, 0, true⟩
    signup [u] "bob" "a@x.com" "other" 2 4 9 true =
      ([u], .flashed ⟨"Email already exists.", "danger"⟩) :=
  C7_duplicate_email [⟨1, "alice", "a@x.com", bcrypt_hashpw "pw" 3, 0, true⟩]
    "bob" "a@x.com" "other" 2 4 9 true
    ⟨⟨1, "alice", "a@x.com", bcrypt_hashpw "pw" 3, 0, true⟩,
     List.mem_singleton.mpr rfl, rfl⟩

/-- C8 counterexample: when `mail.send` fails during signup, the new user
row stays persisted (no rollback), but the route's outcome is an unhandled
exception propagating to the 500 handler — not a flashed warning. The
half of the claim requiring the failure to be "surfaced to the caller as a
distinct warning rather than an unhandled fault" is therefore false. -/
theorem C8_counterexample :
    signup [] "bob" "b@x.com" "pw" 1 5 0 false =
      ([⟨1, "bob", "b@x.com", bcrypt_hashpw "pw" 5, 0, false⟩],
       SignupOutcome.unhandled) ∧
    SignupOutcome.unhandled ≠
      SignupOutcome.flashed
        ⟨"Account created! Please check your email to confirm.", "success"⟩ := by
  constructor
  · rfl
  · decide

/-- C8 amended: when the mail notifier fails during signup of a new email,
the already-persisted user record is not rolled back — the row remains
appended to the store — but the failure is NOT surfaced as a distinct
warning: `signup` wraps `send_confirmation_email` in no handler, so the
exception escapes the route unhandled (500 error page). -/
theorem C8_mail_failure_no_rollback (store : List User) (uname e pw : String)
    (fid hs ca : Nat)
    (habs : find_by_email store e = none) :
    signup store uname e pw fid hs ca false =
      (store ++ [⟨fid, uname, e, bcrypt_hashpw pw hs, ca, false⟩],
       SignupOutcome.unhandled) := by
  simp [signup, habs]

theorem C8_mail_failure_no_rollback_witness :
    signup [] "bob" "b@x.com" "pw" 1 5 0 false =
      ([] ++ [⟨1, "bob", "b@x.com", bcrypt_hashpw "pw" 5, 0, false⟩],
       SignupOutcome.unhandled) :=
  C8_mail_failure_no_rollback [] "bob" "b@x.com" "pw" 1 5 0 (by decide)

/-- The store a `signup` call leaves behind: unchanged on duplicate email,
otherwise the old store with the new unconfirmed row appended. -/
theorem signup_store_shape (store : List User) (un e pw : String)
    (fid hs ca : Nat) (mo : Bool) :
    (signup store un e pw fid hs ca mo).1 = store ∨
    (signup store un e pw fid hs ca mo).1 =
      store ++ [⟨fid, un, e, bcrypt_hashpw pw hs, ca, false⟩] := by
  cases h : find_by_email store e with
  | some w => left; simp [signup, h]
  | none => right; cases mo <;> simp [signup, h]

/-- The store a `confirm_email` call leaves behind: unchanged, or one stored
row re-written with `is_confirmed := true`. -/
theorem confirm_email_store_shape (secret : String) (now : Nat)
    (store : List User) (tok : Token) :
    (confirm_email secret now store tok).1 = store ∨
    ∃ w ∈ store, (confirm_email secret now store tok).1 =
      update_user store { w with is_confirmed := true } := by
  unfold confirm_email
  cases verify_token secret now tok "email-confirmation" 3600 with
  | error err => cases err <;> simp
  | ok e =>
    cases hfe : find_by_email store e with
    | none => simp [hfe]
    | some w =>
      by_cases hc : w.is_confirmed
      · simp [hfe, hc]
      · right
        refine ⟨w, List.mem_of_find?_eq_some hfe, ?_⟩
        simp [hfe, hc]

/-- The store a `reset_password` request leaves behind: always unchanged. -/
theorem reset_password_store_shape (store : List User) (e : String) :
    (reset_password store e).1 = store := by
  unfold reset_password
  cases find_by_email store e <;> rfl

/-- The store a `reset_password_confirm` call leaves behind: unchanged, or
one stored row re-written with a new password hash. -/
theorem reset_password_confirm_store_shape (secret : String) (now : Nat)
    (store : List User) (tok : Token) (np : String) (hs : Nat) (fv : Bool) :
    (reset_password_confirm secret now store tok np hs fv).1 = store ∨
    ∃ w ∈ store, (reset_password_confirm secret now store tok np hs fv).1 =
      update_user store { w with password := bcrypt_hashpw np hs } := by
  unfold reset_password_confirm
  cases verify_token secret now tok "password-reset" 3600 with
  | error err => cases err <;> simp
  | ok e =>
    cases hfe : find_by_email store e with
    | none => simp [hfe]
    | some w =>
      cases fv
      · simp [hfe]
      · right
        refine ⟨w, List.mem_of_find?_eq_some hfe, ?_⟩
        simp [hfe]

/-- The store a `change_password` call leaves behind: unchanged, or one
stored row re-written with a new password hash. -/
theorem change_password_store_shape (store : List User) (uid : Nat)
    (opw np : String) (hs : Nat) :
    (change_password store uid opw np hs).1 = store ∨
    ∃ w ∈ store, (change_password store uid opw np hs).1 =
      update_user store { w with password := bcrypt_hashpw np hs } := by
  unfold change_password
  cases hfe : store.find? (fun u => u.id == uid) with
  | none => simp
  | some w =>
    by_cases hc : bcrypt_checkpw opw w.password = true
    · right
      refine ⟨w, List.mem_of_find?_eq_some hfe, ?_⟩
      simp [hc]
    · rw [Bool.not_eq_true] at hc
      simp [hc]

/-- C9: `is_confirmed` monotonicity. In a store with distinct primary keys,
no lifecycle operation (`signup`, `confirm_email`, `signin`,
`reset_password`, `reset_password_confirm`, `change_password`,
`delete_account`) ever turns a confirmed user's `is_confirmed` from true to
false: any row surviving with the id of a previously confirmed user is
still confirmed. `hfresh` records that the database hands `signup` a fresh
primary key. -/
theorem C9_confirmed_monotone (secret : String) (now : Nat)
    (store : List User) (op : Op)
    (hids : store.Pairwise fun a b => a.id ≠ b.id)
    (hfresh : ∀ un e pw fid hs ca mo, op = .opSignup un e pw fid hs ca mo →
      ∀ w ∈ store, w.id ≠ fid) :
    ∀ u ∈ store, u.is_confirmed = true →
      ∀ v ∈ applyOp secret now store op, v.id = u.id →
        v.is_confirmed = true := by
  intro u hu hconf v hv hvid
  cases op with
  | opSignup un e pw fid hs ca mo =>
    have hfr := hfresh un e pw fid hs ca mo rfl
    rcases signup_store_shape store un e pw fid hs ca mo with h | h <;>
      rw [applyOp, h] at hv
    · rw [pairwise_id_inj hids hv hu hvid]; exact hconf
    · rcases List.mem_append.mp hv with hv' | hv'
      · rw [pairwise_id_inj hids hv' hu hvid]; exact hconf
      · rw [List.mem_singleton.mp hv'] at hvid
        exact absurd hvid.symm (hfr u hu)
  | opConfirmEmail tok =>
    rcases confirm_email_store_shape secret now store tok with h | ⟨w, hw, h⟩ <;>
      rw [applyOp, h] at hv
    · rw [pairwise_id_inj hids hv hu hvid]; exact hconf
    · rcases mem_update_user hv with rfl | hv'
      · rfl
      · rw [pairwise_id_inj hids hv' hu hvid]; exact hconf
  | opSignin un pw =>
    rw [applyOp] at hv
    rw [pairwise_id_inj hids hv hu hvid]; exact hconf
  | opRequestReset e =>
    rw [applyOp, reset_password_store_shape store e] at hv
    rw [pairwise_id_inj hids hv hu hvid]; exact hconf
  | opConfirmReset tok np hs fv =>
    rcases reset_password_confirm_store_shape secret now store tok np hs fv
      with h | ⟨w, hw, h⟩ <;> rw [applyOp, h] at hv
    · rw [pairwise_id_inj hids hv hu hvid]; exact hconf
    · rcases mem_update_user hv with rfl | hv'
      · have : w = u := pairwise_id_inj hids hw hu hvid
        rw [show ({ w with password := bcrypt_hashpw np hs } : User).is_confirmed
            = w.is_confirmed from rfl, this]
        exact hconf
      · rw [pairwise_id_inj hids hv' hu hvid]; exact hconf
  | opChangePassword uid opw np hs =>
    rcases change_password_store_shape store uid opw np hs
      with h | ⟨w, hw, h⟩ <;> rw [applyOp, h] at hv
    · rw [pairwise_id_inj hids hv hu hvid]; exact hconf
    · rcases mem_update_user hv with rfl | hv'
      · have : w = u := pairwise_id_inj hids hw hu hvid
        rw [show ({ w with password := bcrypt_hashpw np hs } : User).is_confirmed
            = w.is_confirmed from rfl, this]
        exact hconf
      · rw [pairwise_id_inj hids hv' hu hvid]; exact hconf
  | opDeleteAccount uid =>
    rw [applyOp] at hv
    have hv' : v ∈ store := List.mem_of_mem_filter hv
    rw [pairwise_id_inj hids hv' hu hvid]; exact hconf

theorem C9_confirmed_monotone_witness :
    User.is_confirmed ⟨1, "alice", "a@x.com", bcrypt_hashpw "pw" 3, 0, true⟩
      = true :=
  C9_confirmed_monotone "k" 0
    [⟨1, "alice", "a@x.com", bcrypt_hashpw "pw" 3, 0, true⟩]
    (.opSignin "alice" "pw")
    (by decide)
    (fun _ _ _ _ _ _ _ h => Op.noConfusion h)
    ⟨1, "alice", "a@x.com", bcrypt_hashpw "pw" 3, 0, true⟩
    (by decide) (by decide)
    ⟨1, "alice", "a@x.com", bcrypt_hashpw "pw" 3, 0, true⟩
    (by decide) (by decide)

/-- C10: frame of password updates. A successful `reset_password_confirm`
or `change_password` replaces the target row by the same row with only the
`password` field renewed; every other row is untouched, and on the updated
row id, username, email, created_at and is_confirmed are preserved. In
particular the reset succeeds for a user whose `is_confirmed` is still
false, and leaves them unconfirmed. -/
theorem C10_password_update_frame (secret np oldpw np2 : String)
    (store : List User) (user user2 : User) (t0 now hs hs2 : Nat)
    (hids : store.Pairwise fun a b => a.id ≠ b.id)
    (hfind : find_by_email store user.email = some user)
    (hage : now ≤ t0 + 3600)
    (hfind2 : store.find? (fun u => u.id == user2.id) = some user2)
    (hpw : bcrypt_checkpw oldpw user2.password = true) :
    reset_password_confirm secret now store
        (generate_token secret t0 user.email "password-reset") np hs true =
      (update_user store { user with password := bcrypt_hashpw np hs },
       some ⟨"Password reset successful!", "success"⟩) ∧
    change_password store user2.id oldpw np2 hs2 =
      (update_user store { user2 with password := bcrypt_hashpw np2 hs2 },
       some ⟨"Password changed successfully!", "success"⟩) ∧
    (∀ w : User, ∀ p : HashedCredential,
      ∀ v ∈ update_user store { w with password := p },
        v ∈ store ∨ (v.id = w.id ∧ v.username = w.username ∧
          v.email = w.email ∧ v.created_at = w.created_at ∧
          v.is_confirmed = w.is_confirmed ∧ v.password = p)) ∧
    (user.is_confirmed = false →
      ∀ v ∈ update_user store { user with password := bcrypt_hashpw np hs },
        v.id = user.id → v.is_confirmed = false) := by
  refine ⟨?_, ?_, ?_, ?_⟩
  · simp [reset_password_confirm, verify_token, generate_token,
      Nat.not_lt.mpr hage, hfind]
  · simp [change_password, hfind2, hpw]
  · intro w p v hv
    rcases mem_update_user hv with rfl | hv'
    · right; exact ⟨rfl, rfl, rfl, rfl, rfl, rfl⟩
    · left; exact hv'
  · intro hunconf v hv hvid
    rcases mem_update_user hv with rfl | hv'
    · exact hunconf
    · have hm : user ∈ store := List.mem_of_find?_eq_some hfind
      rw [pairwise_id_inj hids hv' hm hvid]
      exact hunconf

theorem C10_password_update_frame_witness :
    reset_password_confirm "k" 100
        [⟨1, "alice", "a@x.com", bcrypt_hashpw "pw" 3, 0, false⟩,
         ⟨2, "bob", "b@x.com", bcrypt_hashpw "pw2" 4, 0, true⟩]
        (generate_token "k" 0 "a@x.com" "password-reset") "npw" 7 true =
      (update_user
        [⟨1, "alice", "a@x.com", bcrypt_hashpw "pw" 3, 0, false⟩,
         ⟨2, "bob", "b@x.com", bcrypt_hashpw "pw2" 4, 0, true⟩]
        ⟨1, "alice", "a@x.com", bcrypt_hashpw "npw" 7, 0, false⟩,
       some ⟨"Password reset successful!", "success"⟩) ∧
    change_password
        [⟨1, "alice", "a@x.com", bcrypt_hashpw "pw" 3, 0, false⟩,
         ⟨2, "bob", "b@x.com", bcrypt_hashpw "pw2" 4, 0, true⟩]
        2 "pw2" "npw2" 8 =
      (update_user
        [⟨1, "alice", "a@x.com", bcrypt_hashpw "pw" 3, 0, false⟩,
         ⟨2, "bob", "b@x.com", bcrypt_hashpw "pw2" 4, 0, true⟩]
        ⟨2, "bob", "b@x.com", bcrypt_hashpw "npw2" 8, 0, true⟩,
       some ⟨"Password changed successfully!", "success"⟩) :=
  ⟨(C10_password_update_frame "k" "npw" "pw2" "npw2"
      [⟨1, "alice", "a@x.com", bcrypt_hashpw "pw" 3, 0, false⟩,
       ⟨2, "bob", "b@x.com", bcrypt_hashpw "pw2" 4, 0, true⟩]
      ⟨1, "alice", "a@x.com", bcrypt_hashpw "pw" 3, 0, false⟩
      ⟨2, "bob", "b@x.com", bcrypt_hashpw "pw2" 4, 0, true⟩
      0 100 7 8 (by decide) (by decide) (by decide) (by decide) (by decide)).1,
   (C10_password_update_frame "k" "npw" "pw2" "npw2"
      [⟨1, "alice", "a@x.com", bcrypt_hashpw "pw" 3, 0, false⟩,
       ⟨2, "bob", "b@x.com", bcrypt_hashpw "pw2" 4, 0, true⟩]
      ⟨1, "alice", "a@x.com", bcrypt_hashpw "pw" 3, 0, false⟩
      ⟨2, "bob", "b@x.com", bcrypt_hashpw "pw2" 4, 0, true⟩
      0 100 7 8 (by decide) (by decide) (by decide) (by decide) (by decide)).2.1⟩
